import Mathlib

/-!
A shallow embedding of the civilization-diplomacy simulation
(`civ.py`, `planet.py`, `model.py`) and proofs about it.

Python floats are modelled as rationals (`ℚ`); the transcendental library
calls `np.log` and `np.tanh` are abstracted as oracle parameters
`log tanh : ℚ → ℚ`, since no verified property depends on their values.
Python `dict`s over the three fixed resource keys are modelled as a record
`Resources`; `collections.Counter` entries whose key set matters (the
outstanding-trade ledgers, where `Counter` negation drops non-positive
entries and dict equality is key-sensitive) are modelled as `Ledger`, a
record of `Option ℚ` fields (`none` = key absent, reads default to `0`).
-/

namespace CivDiplomacy

/-! ### Constants from `civ.py` -/

def MAX_CULTURE : ℚ := 800
def DESPERATION_POINT : ℚ := 6/10
def beta_P : ℚ := 1/2
def beta_E : ℚ := 3/10
def delta_P : ℚ := 5/10000
def delta_T : ℚ := 1/1000
def delta_R : ℚ := 5/10000
def sigma_P : ℚ := 1/10
def sigma_T : ℚ := 2/10
def sigma_M : ℚ := 3/10
def theta : ℚ := 15/100
def beta_f : ℚ := 1/10
def e_c : ℚ := 1
def f_c : ℚ := 1
def m_c : ℚ := 1
def alpha_T : ℚ := 1/10
def alpha_M : ℚ := 1/10
def epsilon_R : ℚ := 1/2
def epsilon_P : ℚ := 1/2

/-! ### Constants from `model.py` -/

def WAR_WIN_BOOST : ℚ := 15/100
def COOPERATION_BOOST : ℚ := 1/10
def WAR_PENALTY : ℚ := 1/10
def TRADE_TECH_BOOST : ℚ := 1/2
def PLANET_CONQUEST_CHANCE_ON_WIN : ℚ := 1
def MAX_TURNS_SIM : ℕ := 200

/-! ### Resource triples -/

/-- A Python dict with exactly the keys `energy`, `food`, `minerals`:
the shape of every resource stock, demand, surplus and deficit dict. -/
structure Resources where
  energy : ℚ
  food : ℚ
  minerals : ℚ
deriving DecidableEq, Repr

namespace Resources

def zero : Resources := ⟨0, 0, 0⟩

/-- `Counter.update` on two full-keyed dicts: pointwise addition. -/
def add (a b : Resources) : Resources :=
  ⟨a.energy + b.energy, a.food + b.food, a.minerals + b.minerals⟩

/-- `Counter.subtract` on two full-keyed dicts: pointwise subtraction. -/
def sub (a b : Resources) : Resources :=
  ⟨a.energy - b.energy, a.food - b.food, a.minerals - b.minerals⟩

/-- `sum(self.resources.values())`. -/
def total (a : Resources) : ℚ := a.energy + a.food + a.minerals

end Resources

/-! ### Outstanding-trade ledger entries (key-sensitive `Counter`s) -/

/-- A `Counter`/dict over the resource keys where key *presence* matters:
`none` models an absent key (reads default to `0`, but Python dict
equality distinguishes an absent key from a present `0`). -/
structure Ledger where
  energy : Option ℚ
  food : Option ℚ
  minerals : Option ℚ
deriving DecidableEq, Repr

namespace Ledger

/-- The literal `{"energy": 0, "food": 0, "minerals": 0}` dict. -/
def zeroDict : Ledger := ⟨some 0, some 0, some 0⟩

/-- Reading through `Counter(...)`: absent keys count as `0`. -/
def values (l : Ledger) : Resources :=
  ⟨l.energy.getD 0, l.food.getD 0, l.minerals.getD 0⟩

/-- A full-keyed entry holding the given amounts
(`Counter` built from a dict with all three keys). -/
def ofResources (r : Resources) : Ledger :=
  ⟨some r.energy, some r.food, some r.minerals⟩

/-- `Counter` unary negation (`-amt_to_trade`): keeps only the entries
whose negated value is strictly positive, dropping all others. -/
def negCounter (r : Resources) : Ledger :=
  ⟨if 0 < -r.energy then some (-r.energy) else none,
   if 0 < -r.food then some (-r.food) else none,
   if 0 < -r.minerals then some (-r.minerals) else none⟩

end Ledger

/-! ### The `Civ` agent state (`civ.py`) -/

structure Civ where
  civ_id : ℕ
  num_planets : ℤ
  alive : Bool
  has_won_culture_victory : Bool
  /-- `self.planets` dict, as key membership (planet id ∈ keys). -/
  planets : ℕ → Bool
  friendliness : ℚ
  culture : ℚ
  military : ℚ
  tech : ℚ
  resources : Resources
  demand : Resources
  surplus : Resources
  deficit : Resources
  population : ℚ
  population_cap : ℚ
  max_growth_rate : ℚ
  desperation : ℚ
  is_desparate : Bool
  resource_pressure_component : ℚ
  /-- `self.traded_resources`, indexed by counterpart civ id. -/
  traded_resources : ℕ → Ledger
  /-- `self.relations`, indexed by counterpart civ id. -/
  relations : ℕ → String
  victories : ℕ
  population_pressure : ℚ
  food_pressure : ℚ
  energy_pressure : ℚ
  minerals_pressure : ℚ
  war_initiations_this_turn : ℕ

/-- Per-resource pressure: `deficit / demand` when demand is positive,
else `0` when the deficit is also `0` and `1` otherwise. -/
def resourcePressure (demand_val deficit_val : ℚ) : ℚ :=
  if 0 < demand_val then deficit_val / demand_val
  else if deficit_val = 0 then 0 else 1

/-- `Civ.update_attributes` (`civ.py` lines 83-139), the Economy Update.
`log`/`tanh` are the `np.log`/`np.tanh` oracles. -/
def update_attributes (log tanh : ℚ → ℚ) (c : Civ) : Civ :=
  let food_per_capita := c.resources.food / max c.population (1/1000)
  let max_growth_rate := 1/100 + 5/1000 * tanh (c.tech / 100)
  let growth_rate := min 1 food_per_capita
  let population := c.population + c.population * growth_rate
  let culture := c.culture + delta_P * population + delta_T * c.tech
    + delta_R * c.resources.total
  let military := sigma_P * population + sigma_T * c.tech
    + sigma_M * c.resources.minerals
  let tech := c.tech + beta_P * log population
    + beta_E * (max c.resources.energy (1/1000) / population)
  let friendliness_after_victories :=
    max 0 (c.friendliness - theta * (c.victories : ℚ))
  let cultural_pacification := beta_f * (culture / MAX_CULTURE)
  let friendliness := min 1 (friendliness_after_victories + cultural_pacification)
  let demand : Resources :=
    ⟨e_c * population + alpha_T * tech + alpha_M * military,
     f_c * population, m_c * military⟩
  let flux := c.resources.sub demand
  let surplus : Resources :=
    ⟨if 0 < flux.energy then flux.energy else 0,
     if 0 < flux.food then flux.food else 0,
     if 0 < flux.minerals then flux.minerals else 0⟩
  let deficit : Resources :=
    ⟨if flux.energy < 0 then |flux.energy| else 0,
     if flux.food < 0 then |flux.food| else 0,
     if flux.minerals < 0 then |flux.minerals| else 0⟩
  let current_pop_cap := c.population_cap
  let population_pressure :=
    if current_pop_cap ≤ 0 then
      if 0 < population then population else 0
    else
      max 0 ((population - current_pop_cap) / current_pop_cap)
  let energy_pressure := resourcePressure demand.energy deficit.energy
  let food_pressure := resourcePressure demand.food deficit.food
  let minerals_pressure := resourcePressure demand.minerals deficit.minerals
  let sum_demand_val := demand.total
  let sum_deficit_val := deficit.total
  let deficit_pressure_for_desperation :=
    if 0 < sum_demand_val then sum_deficit_val / sum_demand_val else 0
  let desperation := epsilon_R * population_pressure
    + epsilon_P * deficit_pressure_for_desperation
  let is_desparate : Bool := decide (DESPERATION_POINT < desperation)
  let has_won_culture_victory :=
    c.has_won_culture_victory || decide (MAX_CULTURE ≤ culture)
  { c with
    max_growth_rate := max_growth_rate
    population := population
    culture := culture
    military := military
    tech := tech
    friendliness := friendliness
    demand := demand
    surplus := surplus
    deficit := deficit
    population_pressure := population_pressure
    energy_pressure := energy_pressure
    food_pressure := food_pressure
    minerals_pressure := minerals_pressure
    resource_pressure_component := deficit_pressure_for_desperation
    desperation := desperation
    is_desparate := is_desparate
    has_won_culture_victory := has_won_culture_victory }

/-- `Civ.reset_turn_counters`. -/
def reset_turn_counters (c : Civ) : Civ :=
  { c with war_initiations_this_turn := 0 }

/-! ### Pairwise `Civ` operations -/

/-- The two relation writes performed by `Civ.change_relations`
(lines 151-152) once the tag has been validated. -/
def setRelations (c1 c2 : Civ) (new_relation : String) : Civ × Civ :=
  ({ c1 with relations := Function.update c1.relations c2.civ_id new_relation },
   { c2 with relations := Function.update c2.relations c1.civ_id new_relation })

/-- `Civ.change_relations` (`civ.py` lines 141-152): validates the tag
first (raising `ValueError` on anything outside the three known tags,
before any mutation), then sets both civs' entries for each other. -/
def change_relations (c1 c2 : Civ) (new_relation : String) :
    Except String (Civ × Civ) :=
  if new_relation = "Neutral" ∨ new_relation = "Peace" ∨ new_relation = "War" then
    .ok (setRelations c1 c2 new_relation)
  else
    .error ("change_relations() called w/ \"" ++ new_relation ++
      "\" relation, which isn't \"Neutral\", \"War\", or \"Peace\".")

/-- `Civ.break_trade` (`civ.py` lines 154-172). Note the faithful
reproduction of line 168: the counterpart's resources are updated with
`self.traded_resources[self.get_id()]` — the caller's ledger entry for
*itself* — not with the entry recording what the counterpart is owed. -/
def break_trade (c1 c2 : Civ) : Civ × Civ :=
  if c1.traded_resources c2.civ_id ≠ Ledger.zeroDict then
    let traded_amount := c1.resources.sub (c1.traded_resources c2.civ_id).values
    let new_civ2_resources := c2.resources.add (c1.traded_resources c1.civ_id).values
    ({ c1 with
        resources := traded_amount
        traded_resources := Function.update c1.traded_resources c2.civ_id Ledger.zeroDict },
     { c2 with
        resources := new_civ2_resources
        traded_resources := Function.update c2.traded_resources c1.civ_id Ledger.zeroDict })
  else (c1, c2)

/-- `Model.civs_trade` (`model.py` lines 213-265), the Trade Clearer. -/
def civs_trade (civ1 civ2 : Civ) : Civ × Civ :=
  let flow_from_civ2_to_civ1 : Resources :=
    ⟨min civ2.surplus.energy civ1.deficit.energy,
     min civ2.surplus.food civ1.deficit.food,
     min civ2.surplus.minerals civ1.deficit.minerals⟩
  let flow_from_civ1_to_civ2 : Resources :=
    ⟨min civ1.surplus.energy civ2.deficit.energy,
     min civ1.surplus.food civ2.deficit.food,
     min civ1.surplus.minerals civ2.deficit.minerals⟩
  let amt_to_trade := flow_from_civ2_to_civ1.sub flow_from_civ1_to_civ2
  let civ1_new_resources := civ1.resources.add amt_to_trade
  let civ2_new_resources := civ2.resources.sub amt_to_trade
  let civ1' := { civ1 with
    resources := civ1_new_resources
    traded_resources :=
      Function.update civ1.traded_resources civ2.civ_id (.ofResources amt_to_trade) }
  let civ2' := { civ2 with
    resources := civ2_new_resources
    traded_resources :=
      Function.update civ2.traded_resources civ1.civ_id (.negCounter amt_to_trade) }
  let value_civ2_gave_to_civ1 :=
    max amt_to_trade.energy 0 + max amt_to_trade.food 0 + max amt_to_trade.minerals 0
  if value_civ2_gave_to_civ1 = 0 then
    (civ1', { civ2' with tech := civ2'.tech + TRADE_TECH_BOOST })
  else (civ1', civ2')

/-! ### The `Planet` agent state (`planet.py`) and the world arena -/

structure Planet where
  id : ℕ
  /-- `self.civ`: owner civ id, `none` when unowned. -/
  civ : Option ℕ
  resources : Resources
  population_cap : ℚ

/-- The mutable object graph one `Model` owns: the civ and planet arenas
(indexed by id), the `list_civs` roster, and the model-level run fields. -/
structure World where
  civs : ℕ → Civ
  planets : ℕ → Planet
  numPlanets : ℕ
  /-- `Model.list_civs` as a list of civ ids. -/
  listCivs : List ℕ
  end_type : String
  max_turns : ℕ

def World.setCiv (w : World) (i : ℕ) (c : Civ) : World :=
  { w with civs := Function.update w.civs i c }

def World.setPlanet (w : World) (p : ℕ) (pl : Planet) : World :=
  { w with planets := Function.update w.planets p pl }

/-- `Civ.break_trade` acting on the arena. -/
def breakTradeW (w : World) (i j : ℕ) : World :=
  let r := break_trade (w.civs i) (w.civs j)
  (w.setCiv i r.1).setCiv j r.2

/-- The relation writes of `Civ.change_relations` acting on the arena. -/
def setRelationsW (w : World) (i j : ℕ) (tag : String) : World :=
  let r := setRelations (w.civs i) (w.civs j) tag
  (w.setCiv i r.1).setCiv j r.2

/-- `Planet.remove_civ` (`planet.py` lines 49-78): detaches the planet
from its current owner (if any), transferring out a population share and
the planet's capacity and resource yield. -/
def remove_civ (w : World) (pid : ℕ) : World :=
  let p := w.planets pid
  match p.civ with
  | none => w
  | some cid =>
    let c := w.civs cid
    let population_to_remove :=
      let base :=
        if 0 < c.num_planets then
          min p.population_cap (c.population / (c.num_planets : ℚ))
        else 0
      min base c.population
    let c' := { c with
      planets := Function.update c.planets p.id false
      num_planets := c.num_planets - 1
      population_cap := c.population_cap - p.population_cap
      population := c.population - population_to_remove
      resources := c.resources.sub p.resources }
    (w.setCiv cid c').setPlanet pid { p with civ := none }

/-- `Planet.assign_civ` (`planet.py` lines 31-47): removes the current
owner first (if any), then records the new owner on both sides. -/
def assign_civ (w : World) (pid : ℕ) (new_owner_civ : Option ℕ) : World :=
  let w1 := if (w.planets pid).civ.isSome then remove_civ w pid else w
  let p := w1.planets pid
  let w2 := w1.setPlanet pid { p with civ := new_owner_civ }
  match new_owner_civ with
  | none => w2
  | some cid =>
    let c := w2.civs cid
    w2.setCiv cid { c with
      planets := Function.update c.planets p.id true
      resources := c.resources.add p.resources
      population_cap := c.population_cap + p.population_cap
      num_planets := c.num_planets + 1 }

/-- `Civ.kill_civ` (`civ.py` lines 187-202). -/
def kill_civ (w : World) (cid : ℕ) : World :=
  let w1 := w.setCiv cid { w.civs cid with alive := false }
  let owned := (List.range w1.numPlanets).filter (fun p => (w1.civs cid).planets p)
  let w2 := owned.foldl (fun w p => remove_civ w p) w1
  let w3 := (w2.listCivs.filter (· ≠ cid)).foldl (fun w j => breakTradeW w cid j) w2
  let c := w3.civs cid
  w3.setCiv cid { c with planets := fun _ => false, num_planets := 0, population := 0 }

/-- `Model.civs_war` (`model.py` lines 154-211), the Combat Resolver.
`r1` and `r2` are the two `random()` draws (battle outcome, conquest). -/
def civs_war (w : World) (attacker defender : ℕ) (targeted_planet : Option ℕ)
    (r1 r2 : ℚ) : World :=
  let w := breakTradeW w attacker defender
  let w := setRelationsW w attacker defender "War"
  let A := w.civs attacker
  let D := w.civs defender
  let attacker_power := A.military * (1 + (1/10) * A.tech)
  let defender_power := D.military * (1 + (1/10) * D.tech)
  let total_combat_power := attacker_power + defender_power
  if total_combat_power = 0 then w
  else
    let attacker_win_chance := attacker_power / total_combat_power
    if r1 < attacker_win_chance then
      let w := w.setCiv attacker { A with
        military := A.military + WAR_WIN_BOOST
        tech := A.tech + WAR_WIN_BOOST
        victories := A.victories + 1 }
      match targeted_planet with
      | some p =>
        if (w.planets p).civ = some defender then
          let w := if r2 < PLANET_CONQUEST_CHANCE_ON_WIN then
              assign_civ w p (some attacker)
            else w
          -- `defender.check_if_dead(t, self.list_civs)` then roster removal
          if (w.civs defender).num_planets = 0 then
            { kill_civ w defender with
              listCivs := (kill_civ w defender).listCivs.erase defender }
          else w
        else w
      | none => w
    else
      let w := w.setCiv defender { D with
        military := D.military + WAR_WIN_BOOST
        tech := D.tech + WAR_WIN_BOOST
        victories := D.victories + 1 }
      let A2 := w.civs attacker
      w.setCiv attacker { A2 with
        tech := max 0 (A2.tech - WAR_PENALTY)
        culture := max 0 (A2.culture - WAR_PENALTY) }

/-! ### The Turn Loop (`Model.run_simulation`, `model.py` lines 545-632)

The Interaction Decision Engine (`interact_civs`: probabilistic pair
decisions over `can_interact` ranges) is abstracted as an oracle
`interact : ℕ → World → World` that gets the turn number; every terminal
branch of the driver itself is embedded exactly. -/

/-- Step 1 of the per-turn sequence: the backwards iteration over
`list_civs` (indices `len-1` down to `0`) that pops dead civs, runs the
Economy Update on the rest, and returns immediately when a civ has just
won a culture victory (leaving the remaining civs un-updated for that
turn). The input list is `list_civs` reversed; the returned roster is
also reversed. The `Bool` records whether the culture-victory return
fired. -/
def updateLoopRev (log tanh : ℚ → ℚ) (w : World) : List ℕ → World × List ℕ × Bool
  | [] => (w, [], false)
  | i :: rest =>
    let c := w.civs i
    if !c.alive then updateLoopRev log tanh w rest
    else
      let c' := update_attributes log tanh c
      let w' := w.setCiv i c'
      if c'.has_won_culture_victory then (w', i :: rest, true)
      else
        let r := updateLoopRev log tanh w' rest
        (r.1, i :: r.2.1, r.2.2)

/-- One iteration of the `while t < self.max_turns` body. Returns the
new world and whether a terminal `return` fired. -/
def doTurn (log tanh : ℚ → ℚ) (interact : ℕ → World → World) (t : ℕ)
    (w : World) : World × Bool :=
  let r := updateLoopRev log tanh w w.listCivs.reverse
  let w1 := { r.1 with listCivs := r.2.1.reverse }
  if r.2.2 then ({ w1 with end_type := "Culture" }, true)
  else
    let active_civs_for_interaction :=
      w1.listCivs.filter (fun i => (w1.civs i).alive)
    if active_civs_for_interaction.isEmpty then
      ({ w1 with end_type := "Stalemate" }, true)
    else
      let w2 := active_civs_for_interaction.foldl
        (fun w i => w.setCiv i (reset_turn_counters (w.civs i))) w1
      let w3 := interact t w2
      let current_alive := w3.listCivs.filter (fun i => (w3.civs i).alive)
      if current_alive.length = 1 then ({ w3 with end_type := "Military" }, true)
      else if current_alive.any (fun i => (w3.civs i).has_won_culture_victory) then
        ({ w3 with end_type := "Culture" }, true)
      else if current_alive.isEmpty then ({ w3 with end_type := "Stalemate" }, true)
      else (w3, false)

/-- The turn loop: `fuel` turns remain, `t` turns have run. When the
fuel is exhausted the loop simply falls off the end of the function —
there is no code after the `while` loop in the source. -/
def runLoop (log tanh : ℚ → ℚ) (interact : ℕ → World → World) :
    ℕ → ℕ → World → World
  | 0, _, w => w
  | fuel + 1, t, w =>
    let r := doTurn log tanh interact (t + 1) w
    if r.2 then r.1 else runLoop log tanh interact fuel (t + 1) r.1

/-- `Model.run_simulation`, as the final model state it leaves behind. -/
def run_simulation (log tanh : ℚ → ℚ) (interact : ℕ → World → World)
    (w : World) : World :=
  runLoop log tanh interact w.max_turns 0 w

/-- Trace check: `true` iff no terminal condition (culture victory,
sole survivor, all eliminated) fires in any of the given turns. -/
def noTerminalRun (log tanh : ℚ → ℚ) (interact : ℕ → World → World) :
    ℕ → ℕ → World → Bool
  | 0, _, _ => true
  | fuel + 1, t, w =>
    let r := doTurn log tanh interact (t + 1) w
    if r.2 then false else noTerminalRun log tanh interact fuel (t + 1) r.1

/-! ### Ownership invariants -/

/-- The planet-ownership consistency the arenas maintain: planet ids
index the arena, and a planet id is a key of a civ's `planets` dict
exactly when that planet's owner back-reference is that civ. -/
def consistent (w : World) : Prop :=
  (∀ p, p < w.numPlanets → (w.planets p).id = p) ∧
  (∀ p, p < w.numPlanets → ∀ c, ((w.civs c).planets p = true ↔ (w.planets p).civ = some c))

/-- Every planet is owned by (is a dict key of) at most one civ. -/
def atMostOneOwner (w : World) : Prop :=
  ∀ p, p < w.numPlanets → ∀ c c',
    (w.civs c).planets p = true → (w.civs c').planets p = true → c = c'

/-! ### Concrete states used by witnesses and counterexamples -/

/-- Zero oracle standing in for `np.log` / `np.tanh` at concrete inputs. -/
def zfun : ℚ → ℚ := fun _ => 0

/-- A freshly initialised civ (`Civ.__init__` with the default zero
attributes, population 1, all relations `"Neutral"`, zeroed ledgers). -/
def baseCiv (i : ℕ) : Civ :=
  { civ_id := i, num_planets := 0, alive := true, has_won_culture_victory := false,
    planets := fun _ => false, friendliness := 1/2, culture := 0, military := 0, tech := 0,
    resources := .zero, demand := .zero, surplus := .zero, deficit := .zero,
    population := 1, population_cap := 0, max_growth_rate := 0, desperation := 0,
    is_desparate := false, resource_pressure_component := 0,
    traded_resources := fun _ => .zeroDict, relations := fun _ => "Neutral",
    victories := 0, population_pressure := 0, food_pressure := 0, energy_pressure := 0,
    minerals_pressure := 0, war_initiations_this_turn := 0 }

/-- Civ A of the spec's trade example: an energy deficit of 50,
nothing to give. -/
def cA : Civ := { baseCiv 0 with deficit := ⟨50, 0, 0⟩ }

/-- Civ B of the spec's trade example: an energy surplus of 50 backed
by an energy stock of 100, no deficits. -/
def cB : Civ := { baseCiv 1 with surplus := ⟨50, 0, 0⟩, resources := ⟨100, 0, 0⟩ }

/-- A two-civ world with zero military and tech on both sides
(zero combat power) and all relations `"Neutral"`. -/
def wWar : World :=
  { civs := fun i => baseCiv i, planets := fun p => ⟨p, none, .zero, 0⟩,
    numPlanets := 0, listCivs := [0, 1], end_type := "", max_turns := MAX_TURNS_SIM }

/-- A civ whose resource stock has gone negative (as `remove_civ` can
produce): the Economy Update does not clamp it back. -/
def negCiv : Civ := { baseCiv 0 with resources := ⟨-90, 0, 0⟩ }

/-- A world where civ 0 owns planet 0, holding a stock of 10 per
resource while the planet's yield is 100 per resource. -/
def wRem : World :=
  { civs := fun i =>
      if i = 0 then
        { baseCiv 0 with
          planets := fun p => decide (p = 0)
          num_planets := 1
          population_cap := 5
          resources := ⟨10, 10, 10⟩ }
      else baseCiv i,
    planets := fun p => ⟨p, if p = 0 then some 0 else none, ⟨100, 100, 100⟩, 5⟩,
    numPlanets := 1, listCivs := [0], end_type := "", max_turns := MAX_TURNS_SIM }

/-- A two-civ, two-planet consistent world: civ `i` owns planet `i`. -/
def wC10 : World :=
  { civs := fun i =>
      { baseCiv i with
        planets := fun p => decide (p = i)
        num_planets := 1
        population_cap := 5
        resources := ⟨10, 10, 10⟩ },
    planets := fun p => ⟨p, some p, ⟨1, 1, 1⟩, 5⟩,
    numPlanets := 2, listCivs := [0, 1], end_type := "", max_turns := MAX_TURNS_SIM }

/-- A civ with friendliness 0 (the `thunderdome` scenario preset),
population 10, a stock of 10 per resource, owning planet 0. -/
def cF0 : Civ :=
  { baseCiv 0 with
    friendliness := 0
    population := 10
    planets := fun p => decide (p = 0)
    num_planets := 1
    population_cap := 5
    resources := ⟨10, 10, 10⟩ }

/-- A world where the friendliness-0 civ `cF0` owns planet 0, whose
yield (100 per resource) exceeds the civ's stock (10 per resource):
losing the planet drives the stock to `-90` per resource. -/
def wF0 : World :=
  { civs := fun i => if i = 0 then cF0 else baseCiv i,
    planets := fun p => ⟨p, if p = 0 then some 0 else none, ⟨100, 100, 100⟩, 5⟩,
    numPlanets := 1, listCivs := [0], end_type := "", max_turns := MAX_TURNS_SIM }

/-- The two-civ world the turn-limit run is evaluated on: both civs
alive, peaceful oracle interactions, `max_turns` = `MAX_TURNS_SIM`. -/
def w6 : World :=
  { civs := fun i => baseCiv i, planets := fun p => ⟨p, none, .zero, 0⟩,
    numPlanets := 0, listCivs := [0, 1], end_type := "", max_turns := MAX_TURNS_SIM }

/-! ## Theorems -/

/-- **C9.** The Economy Update never changes a civilization's resource
stock: `update_attributes` reads `resources` to derive demand, surplus
and deficit but writes it nowhere, so the stock after the call equals
the stock before it, for every civ state and every `log`/`tanh` oracle. -/
theorem update_attributes_preserves_resources (log tanh : ℚ → ℚ) (c : Civ) :
    (update_attributes log tanh c).resources = c.resources := rfl

/-- **C2.** In every trade clearing `civs_trade(civ1, civ2)`, the
per-resource flows are `flow(2→1) = min(civ2.surplus, civ1.deficit)`
and `flow(1→2) = min(civ1.surplus, civ2.deficit)`; civ1's stock gains
exactly the net flow, civ2's stock loses exactly the same net flow, and
the two net changes cancel per resource (conservation). -/
theorem civs_trade_flows_and_conservation (civ1 civ2 : Civ) :
    let f21 : Resources :=
      ⟨min civ2.surplus.energy civ1.deficit.energy,
       min civ2.surplus.food civ1.deficit.food,
       min civ2.surplus.minerals civ1.deficit.minerals⟩
    let f12 : Resources :=
      ⟨min civ1.surplus.energy civ2.deficit.energy,
       min civ1.surplus.food civ2.deficit.food,
       min civ1.surplus.minerals civ2.deficit.minerals⟩
    ((civs_trade civ1 civ2).1.resources.energy
        = civ1.resources.energy + (f21.energy - f12.energy)
      ∧ (civs_trade civ1 civ2).1.resources.food
        = civ1.resources.food + (f21.food - f12.food)
      ∧ (civs_trade civ1 civ2).1.resources.minerals
        = civ1.resources.minerals + (f21.minerals - f12.minerals))
    ∧ ((civs_trade civ1 civ2).2.resources.energy
        = civ2.resources.energy - (f21.energy - f12.energy)
      ∧ (civs_trade civ1 civ2).2.resources.food
        = civ2.resources.food - (f21.food - f12.food)
      ∧ (civs_trade civ1 civ2).2.resources.minerals
        = civ2.resources.minerals - (f21.minerals - f12.minerals))
    ∧ (((civs_trade civ1 civ2).1.resources.energy - civ1.resources.energy)
        + ((civs_trade civ1 civ2).2.resources.energy - civ2.resources.energy) = 0
      ∧ ((civs_trade civ1 civ2).1.resources.food - civ1.resources.food)
        + ((civs_trade civ1 civ2).2.resources.food - civ2.resources.food) = 0
      ∧ ((civs_trade civ1 civ2).1.resources.minerals - civ1.resources.minerals)
        + ((civs_trade civ1 civ2).2.resources.minerals - civ2.resources.minerals) = 0) := by
  unfold civs_trade
  dsimp only [Resources.add, Resources.sub]
  split <;> refine ⟨⟨rfl, rfl, rfl⟩, ⟨rfl, rfl, rfl⟩, ?_, ?_, ?_⟩ <;> ring

/-- **C1, counterexample.** In the spec's own example (B = `civ2` has an
energy surplus of 50, A = `civ1` an energy deficit of 50, nothing flows
the other way), B gives 50 and receives 0, so by the claim A, the net
receiver, should gain `TRADE_TECH_BOOST`; the code awards the boost to
nobody: both civs' tech is unchanged. -/
theorem trade_tech_boost_receiver_counterexample :
    (civs_trade cA cB).1.resources.energy = cA.resources.energy + 50 ∧
    (civs_trade cA cB).2.resources.energy = cB.resources.energy - 50 ∧
    (civs_trade cA cB).1.tech = cA.tech ∧
    (civs_trade cA cB).2.tech = cB.tech := by
  with_unfolding_all decide

/-- **C1, amended.** The boost only ever goes to `civ2`, and it fires
exactly when the net per-resource flow from civ2 to civ1 has no
strictly positive component (so also when nothing is exchanged at all);
`civ1`'s tech never changes. -/
theorem trade_tech_boost_actual_rule (civ1 civ2 : Civ) :
    let amt : Resources :=
      ⟨min civ2.surplus.energy civ1.deficit.energy
         - min civ1.surplus.energy civ2.deficit.energy,
       min civ2.surplus.food civ1.deficit.food
         - min civ1.surplus.food civ2.deficit.food,
       min civ2.surplus.minerals civ1.deficit.minerals
         - min civ1.surplus.minerals civ2.deficit.minerals⟩
    ((civs_trade civ1 civ2).2.tech =
      if max amt.energy 0 + max amt.food 0 + max amt.minerals 0 = 0
      then civ2.tech + TRADE_TECH_BOOST else civ2.tech)
    ∧ (civs_trade civ1 civ2).1.tech = civ1.tech := by
  unfold civs_trade
  dsimp only [Resources.sub]
  split <;> exact ⟨rfl, rfl⟩

/-- **C5 (code bug).** After the example trade (B gives A 50 energy),
`break_trade(A, B)` restores A's stock but leaves B 50 energy short of
its pre-trade стоck, because line 168 of `civ.py` adds
`self.traded_resources[self.get_id()]` (the caller's always-zero ledger
entry for itself) to B instead of the amount B is owed; moreover B's
ledger entry after the trade is the empty `Counter` (unary negation
dropped the `-50` entry), not the signed net `-50`. -/
theorem break_trade_fails_roundtrip :
    (break_trade (civs_trade cA cB).1 (civs_trade cA cB).2).1.resources = cA.resources ∧
    (break_trade (civs_trade cA cB).1 (civs_trade cA cB).2).2.resources.energy = 50 ∧
    cB.resources.energy = 100 ∧
    (civs_trade cA cB).2.traded_resources 0 = ⟨none, none, none⟩ := by
  with_unfolding_all decide

/-- **C4, counterexample.** Resource stocks can become negative and the
Economy Update does not clamp them: in `wRem`, civ 0's stock (10) is
non-negative, but `Planet.remove_civ` subtracts the planet's yield
(100), leaving `-90`; running `update_attributes` on a civ with a
`-90` energy stock leaves it at `-90 < 0`. -/
theorem resources_can_go_negative :
    (0 ≤ (wRem.civs 0).resources.energy ∧
      ((remove_civ wRem 0).civs 0).resources.energy < 0) ∧
    (update_attributes zfun zfun negCiv).resources.energy < 0 := by
  with_unfolding_all decide

/-- **C4, amended.** The Economy Update leaves the resource stock
untouched, so it preserves componentwise non-negativity whenever the
stock was non-negative before the call (but it establishes nothing:
no clamping of stocks exists, and other operations can make them
negative). -/
theorem update_attributes_preserves_resource_nonneg (log tanh : ℚ → ℚ) (c : Civ)
    (he : 0 ≤ c.resources.energy) (hf : 0 ≤ c.resources.food)
    (hm : 0 ≤ c.resources.minerals) :
    0 ≤ (update_attributes log tanh c).resources.energy ∧
    0 ≤ (update_attributes log tanh c).resources.food ∧
    0 ≤ (update_attributes log tanh c).resources.minerals :=
  ⟨he, hf, hm⟩

/-- Witness for the amended C4 at a concrete civ. -/
theorem update_attributes_preserves_resource_nonneg_witness :
    0 ≤ (update_attributes zfun zfun (baseCiv 0)).resources.energy ∧
    0 ≤ (update_attributes zfun zfun (baseCiv 0)).resources.food ∧
    0 ≤ (update_attributes zfun zfun (baseCiv 0)).resources.minerals :=
  update_attributes_preserves_resource_nonneg zfun zfun (baseCiv 0)
    (by norm_num [baseCiv, Resources.zero]) (by norm_num [baseCiv, Resources.zero])
    (by norm_num [baseCiv, Resources.zero])

/-- **C7.** `change_relations` succeeds exactly on the three known
relation tags; on success both civs' entries for each other are set to
the tag, and an invalid tag produces a descriptive error before any
state is touched (the validation precedes both writes in the source). -/
theorem change_relations_validation (c1 c2 : Civ) (tag : String) :
    ((∃ r, change_relations c1 c2 tag = .ok r) ↔
      (tag = "Neutral" ∨ tag = "Peace" ∨ tag = "War"))
    ∧ ((tag = "Neutral" ∨ tag = "Peace" ∨ tag = "War") →
        change_relations c1 c2 tag = .ok
          ({ c1 with relations := Function.update c1.relations c2.civ_id tag },
           { c2 with relations := Function.update c2.relations c1.civ_id tag }))
    ∧ (¬(tag = "Neutral" ∨ tag = "Peace" ∨ tag = "War") →
        ∃ msg, change_relations c1 c2 tag = .error msg) := by
  unfold change_relations setRelations
  by_cases h : tag = "Neutral" ∨ tag = "Peace" ∨ tag = "War" <;> simp [h]

/-- Witness for C7: a valid and an invalid tag at concrete civs. -/
theorem change_relations_validation_witness :
    (∃ r, change_relations (baseCiv 0) (baseCiv 1) "Peace" = .ok r) ∧
    (∃ msg, change_relations (baseCiv 0) (baseCiv 1) "Friendly" = .error msg) :=
  ⟨(change_relations_validation (baseCiv 0) (baseCiv 1) "Peace").1.mpr
      (Or.inr (Or.inl rfl)),
   (change_relations_validation (baseCiv 0) (baseCiv 1) "Friendly").2.2 (by simp)⟩

/-! ### Frame helper lemmas -/

theorem civs_setCiv (w : World) (j : ℕ) (c : Civ) (i : ℕ) :
    (w.setCiv j c).civs i = if i = j then c else w.civs i := by
  simp [World.setCiv, Function.update_apply]

theorem civs_setPlanet (w : World) (p : ℕ) (pl : Planet) :
    (w.setPlanet p pl).civs = w.civs := rfl

theorem planets_setCiv (w : World) (j : ℕ) (c : Civ) :
    (w.setCiv j c).planets = w.planets := rfl

/-- `break_trade` touches only `resources` and `traded_resources`. -/
theorem break_trade_skeleton (c1 c2 : Civ) :
    ∃ r1 t1 r2 t2, break_trade c1 c2 =
      ({ c1 with resources := r1, traded_resources := t1 },
       { c2 with resources := r2, traded_resources := t2 }) := by
  unfold break_trade
  dsimp only
  split
  · exact ⟨_, _, _, _, rfl⟩
  · exact ⟨c1.resources, c1.traded_resources, c2.resources, c2.traded_resources, rfl⟩

/-- `civs_trade` touches only `resources`, `traded_resources` and
(on the second civ) `tech`. -/
theorem civs_trade_skeleton (c1 c2 : Civ) :
    ∃ r1 t1 r2 t2 q, civs_trade c1 c2 =
      ({ c1 with resources := r1, traded_resources := t1 },
       { c2 with resources := r2, traded_resources := t2, tech := q }) := by
  unfold civs_trade
  dsimp only
  split
  · exact ⟨_, _, _, _, _, rfl⟩
  · exact ⟨_, _, _, _, c2.tech, rfl⟩

/-- A civ of `setRelationsW w a d tag` differs from the one in `w` only
in its `relations` map. -/
theorem setRelationsW_civs (w : World) (a d : ℕ) (tag : String) (i : ℕ) :
    ∃ f, (setRelationsW w a d tag).civs i = { w.civs i with relations := f } := by
  unfold setRelationsW setRelations
  rw [civs_setCiv, civs_setCiv]
  split
  · next h => exact h ▸ ⟨_, rfl⟩
  · split
    · next h => exact h ▸ ⟨_, rfl⟩
    · exact ⟨(w.civs i).relations, rfl⟩

/-- A civ of `breakTradeW w a d` differs from the one in `w` only in
its `resources` and `traded_resources`. -/
theorem breakTradeW_civs (w : World) (a d : ℕ) (i : ℕ) :
    ∃ r t, (breakTradeW w a d).civs i =
      { w.civs i with resources := r, traded_resources := t } := by
  obtain ⟨r1, t1, r2, t2, hbt⟩ := break_trade_skeleton (w.civs a) (w.civs d)
  unfold breakTradeW
  rw [hbt, civs_setCiv, civs_setCiv]
  split
  · next h => exact h ▸ ⟨_, _, rfl⟩
  · split
    · next h => exact h ▸ ⟨_, _, rfl⟩
    · exact ⟨(w.civs i).resources, (w.civs i).traded_resources, rfl⟩

/-- Pointwise friendliness preservation through one `setCiv` whose
written civ keeps the friendliness of the civ it replaces. -/
theorem setCiv_friendliness_pres (W : World) (a : ℕ) (X : Civ)
    (hX : X.friendliness = (W.civs a).friendliness) (j : ℕ) :
    ((W.setCiv a X).civs j).friendliness = (W.civs j).friendliness := by
  rw [civs_setCiv]
  split
  · next e => exact e ▸ hX
  · rfl

/-- A civ of `remove_civ w pid` differs from the one in `w` only in its
planet dict, planet count, capacity, population and resources. -/
theorem remove_civ_civs (w : World) (pid : ℕ) (i : ℕ) :
    ∃ pl nm pc pp r, (remove_civ w pid).civs i =
      { w.civs i with planets := pl, num_planets := nm, population_cap := pc,
                      population := pp, resources := r } := by
  unfold remove_civ
  dsimp only
  rcases hciv : (w.planets pid).civ with _ | cid
  · exact ⟨_, _, _, _, (w.civs i).resources, rfl⟩
  · dsimp only
    rw [civs_setPlanet, civs_setCiv]
    split
    · next h =>
      subst h
      exact ⟨_, _, _, _, _, rfl⟩
    · exact ⟨_, _, _, _, (w.civs i).resources, rfl⟩

theorem remove_civ_friendliness (w : World) (pid i : ℕ) :
    ((remove_civ w pid).civs i).friendliness = (w.civs i).friendliness := by
  obtain ⟨pl, nm, pc, pp, r, h⟩ := remove_civ_civs w pid i
  rw [h]

/-- A civ of `assign_civ w pid o` differs from the one in `w` only in
its planet dict, planet count, capacity, population and resources. -/
theorem assign_civ_civs (w : World) (pid : ℕ) (o : Option ℕ) (i : ℕ) :
    ∃ pl nm pc pp r, (assign_civ w pid o).civs i =
      { w.civs i with planets := pl, num_planets := nm, population_cap := pc,
                      population := pp, resources := r } := by
  have h1 : ∃ pl nm pc pp r,
      (if (w.planets pid).civ.isSome then remove_civ w pid else w).civs i =
        { w.civs i with planets := pl, num_planets := nm, population_cap := pc,
                        population := pp, resources := r } := by
    by_cases h : (w.planets pid).civ.isSome
    · rw [if_pos h]
      exact remove_civ_civs w pid i
    · rw [if_neg h]
      exact ⟨_, _, _, _, (w.civs i).resources, rfl⟩
  obtain ⟨pl, nm, pc, pp, r, h1⟩ := h1
  unfold assign_civ
  cases o with
  | none =>
    rw [civs_setPlanet, h1]
    exact ⟨_, _, _, _, _, rfl⟩
  | some cid =>
    dsimp only
    rw [civs_setCiv]
    split
    · next h =>
      subst h
      rw [civs_setPlanet, h1]
      exact ⟨_, _, _, _, _, rfl⟩
    · rw [civs_setPlanet, h1]
      exact ⟨_, _, _, _, _, rfl⟩

theorem assign_civ_friendliness (w : World) (pid : ℕ) (o : Option ℕ) (i : ℕ) :
    ((assign_civ w pid o).civs i).friendliness = (w.civs i).friendliness := by
  obtain ⟨pl, nm, pc, pp, r, h⟩ := assign_civ_civs w pid o i
  rw [h]

/-- Folding a friendliness-preserving world operation over a list keeps
every civ's friendliness. -/
theorem foldl_friendliness {β : Type} (f : World → β → World)
    (hf : ∀ w x i, ((f w x).civs i).friendliness = (w.civs i).friendliness) :
    ∀ (l : List β) (w : World) (i : ℕ),
      ((l.foldl f w).civs i).friendliness = (w.civs i).friendliness
  | [], _, _ => rfl
  | x :: xs, w, i => by
    rw [List.foldl_cons, foldl_friendliness f hf xs, hf]

theorem breakTradeW_friendliness (w : World) (a d i : ℕ) :
    ((breakTradeW w a d).civs i).friendliness = (w.civs i).friendliness := by
  obtain ⟨r, t, h⟩ := breakTradeW_civs w a d i
  rw [h]

theorem setRelationsW_friendliness (w : World) (a d : ℕ) (tag : String) (i : ℕ) :
    ((setRelationsW w a d tag).civs i).friendliness = (w.civs i).friendliness := by
  obtain ⟨f, h⟩ := setRelationsW_civs w a d tag i
  rw [h]

theorem kill_civ_friendliness (w : World) (cid : ℕ) (i : ℕ) :
    ((kill_civ w cid).civs i).friendliness = (w.civs i).friendliness := by
  unfold kill_civ
  dsimp only
  refine (setCiv_friendliness_pres _ cid _ ?_ i).trans ?_
  · rfl
  refine (foldl_friendliness _ (fun w x k => breakTradeW_friendliness w cid x k) _ _ i).trans ?_
  refine (foldl_friendliness _ (fun w x k => remove_civ_friendliness w x k) _ _ i).trans ?_
  refine setCiv_friendliness_pres w cid _ ?_ i
  rfl

theorem civs_war_friendliness (w : World) (a d : ℕ) (tp : Option ℕ)
    (r1 r2 : ℚ) (i : ℕ) :
    ((civs_war w a d tp r1 r2).civs i).friendliness = (w.civs i).friendliness := by
  have hbase : ∀ j, ((setRelationsW (breakTradeW w a d) a d "War").civs j).friendliness
      = (w.civs j).friendliness := fun j => by
    rw [setRelationsW_friendliness, breakTradeW_friendliness]
  unfold civs_war
  dsimp only
  generalize hW : setRelationsW (breakTradeW w a d) a d "War" = W at hbase ⊢
  split
  · exact hbase i
  · split
    · cases tp with
      | none =>
        dsimp only
        refine (setCiv_friendliness_pres W a _ ?_ i).trans (hbase i)
        rfl
      | some p =>
        dsimp only
        split
        · split
          · split
            · refine (kill_civ_friendliness _ d i).trans ?_
              refine (assign_civ_friendliness _ p (some a) i).trans ?_
              refine (setCiv_friendliness_pres W a _ ?_ i).trans (hbase i)
              rfl
            · refine (assign_civ_friendliness _ p (some a) i).trans ?_
              refine (setCiv_friendliness_pres W a _ ?_ i).trans (hbase i)
              rfl
          · split
            · refine (kill_civ_friendliness _ d i).trans ?_
              refine (setCiv_friendliness_pres W a _ ?_ i).trans (hbase i)
              rfl
            · refine (setCiv_friendliness_pres W a _ ?_ i).trans (hbase i)
              rfl
        · refine (setCiv_friendliness_pres W a _ ?_ i).trans (hbase i)
          rfl
    · refine (setCiv_friendliness_pres _ a _ ?_ i).trans ?_
      · rfl
      refine (setCiv_friendliness_pres W d _ ?_ i).trans (hbase i)
      rfl

/-- **C8, counterexample.** Friendliness does not always stay in
`[0,1]`: starting from a civ whose friendliness is `0` (in `[0,1]`) and
whose culture and resource stocks are non-negative, losing its planet
(`remove_civ`) drives the stocks to `-90` each, the next Economy Update
then makes population and culture negative, and the friendliness step
`min(1, max(0, f - θ·v) + β_f·(culture/MAX_CULTURE))` returns a
negative value. -/
theorem friendliness_leaves_unit_interval :
    (0 ≤ (wF0.civs 0).friendliness ∧ (wF0.civs 0).friendliness ≤ 1 ∧
      0 ≤ (wF0.civs 0).culture ∧ 0 ≤ (wF0.civs 0).population ∧
      0 ≤ (wF0.civs 0).resources.energy ∧ 0 ≤ (wF0.civs 0).resources.food ∧
      0 ≤ (wF0.civs 0).resources.minerals) ∧
    (update_attributes zfun zfun ((remove_civ wF0 0).civs 0)).friendliness < 0 := by
  with_unfolding_all decide

/-- **C8, amended.** The friendliness step never exceeds `1` (the cap
is unconditional), and it stays non-negative whenever the civ's
population, culture, tech and resource stocks are non-negative — but
since resource stocks are not clamped and can go negative, culture can
turn negative and friendliness can then drop below `0`. No other
operation — trade clearing, trade breaking, planet transfer, combat
resolution, elimination — ever writes friendliness at all. -/
theorem friendliness_in_unit_interval (log tanh : ℚ → ℚ) (c : Civ) :
    (update_attributes log tanh c).friendliness ≤ 1 ∧
    (0 ≤ c.population → 0 ≤ c.culture → 0 ≤ c.tech →
      0 ≤ c.resources.energy → 0 ≤ c.resources.food → 0 ≤ c.resources.minerals →
      0 ≤ (update_attributes log tanh c).friendliness) ∧
    (∀ c1 c2 : Civ,
      (civs_trade c1 c2).1.friendliness = c1.friendliness ∧
      (civs_trade c1 c2).2.friendliness = c2.friendliness ∧
      (break_trade c1 c2).1.friendliness = c1.friendliness ∧
      (break_trade c1 c2).2.friendliness = c2.friendliness) ∧
    (∀ (w : World) (pid i : ℕ) (o : Option ℕ),
      ((remove_civ w pid).civs i).friendliness = (w.civs i).friendliness ∧
      ((assign_civ w pid o).civs i).friendliness = (w.civs i).friendliness) ∧
    (∀ (w : World) (a d i : ℕ) (tp : Option ℕ) (r1 r2 : ℚ),
      ((civs_war w a d tp r1 r2).civs i).friendliness = (w.civs i).friendliness ∧
      ((kill_civ w a).civs i).friendliness = (w.civs i).friendliness) := by
  have hfr : (update_attributes log tanh c).friendliness
      = min 1 (max 0 (c.friendliness - theta * (c.victories : ℚ))
          + beta_f * ((c.culture
              + delta_P * (c.population + c.population
                  * min 1 (c.resources.food / max c.population (1/1000)))
              + delta_T * c.tech + delta_R * c.resources.total) / MAX_CULTURE)) := rfl
  refine ⟨?_, ?_, ?_, ?_, ?_⟩
  · rw [hfr]
    exact min_le_left _ _
  · intro hpop hcul htech he hf hm
    have hgrow : (0:ℚ) ≤ min 1 (c.resources.food / max c.population (1/1000)) :=
      le_min (by norm_num)
        (div_nonneg hf ((by norm_num : (0:ℚ) ≤ 1/1000).trans (le_max_right _ _)))
    have hpop2 : (0:ℚ) ≤ c.population + c.population
        * min 1 (c.resources.food / max c.population (1/1000)) :=
      add_nonneg hpop (mul_nonneg hpop hgrow)
    have hcul2 : (0:ℚ) ≤ c.culture
        + delta_P * (c.population + c.population
            * min 1 (c.resources.food / max c.population (1/1000)))
        + delta_T * c.tech + delta_R * c.resources.total := by
      have h4 : (0:ℚ) ≤ c.resources.total := add_nonneg (add_nonneg he hf) hm
      exact add_nonneg (add_nonneg
        (add_nonneg hcul (mul_nonneg (by norm_num [delta_P]) hpop2))
        (mul_nonneg (by norm_num [delta_T]) htech))
        (mul_nonneg (by norm_num [delta_R]) h4)
    have hpac : (0:ℚ) ≤ beta_f * ((c.culture
        + delta_P * (c.population + c.population
            * min 1 (c.resources.food / max c.population (1/1000)))
        + delta_T * c.tech + delta_R * c.resources.total) / MAX_CULTURE) :=
      mul_nonneg (by norm_num [beta_f]) (div_nonneg hcul2 (by norm_num [MAX_CULTURE]))
    rw [hfr]
    exact le_min (by norm_num) (add_nonneg (le_max_left 0 _) hpac)
  · intro c1 c2
    obtain ⟨r1, t1, r2, t2, q, ht⟩ := civs_trade_skeleton c1 c2
    obtain ⟨br1, bt1, br2, bt2, hb⟩ := break_trade_skeleton c1 c2
    rw [ht, hb]
    exact ⟨rfl, rfl, rfl, rfl⟩
  · exact fun w pid i o =>
      ⟨remove_civ_friendliness w pid i, assign_civ_friendliness w pid o i⟩
  · exact fun w a d i tp r1 r2 =>
      ⟨civs_war_friendliness w a d tp r1 r2 i, kill_civ_friendliness w a i⟩

/-- Witness for the amended C8 at a concrete freshly initialised civ. -/
theorem friendliness_in_unit_interval_witness :
    (update_attributes zfun zfun (baseCiv 0)).friendliness ≤ 1 ∧
    0 ≤ (update_attributes zfun zfun (baseCiv 0)).friendliness :=
  ⟨(friendliness_in_unit_interval zfun zfun (baseCiv 0)).1,
   (friendliness_in_unit_interval zfun zfun (baseCiv 0)).2.1
    (by norm_num [baseCiv]) (by norm_num [baseCiv]) (by norm_num [baseCiv])
    (by norm_num [baseCiv, Resources.zero]) (by norm_num [baseCiv, Resources.zero])
    (by norm_num [baseCiv, Resources.zero])⟩

/-- A civ after the pre-combat steps of `civs_war` (trade break and
relation write) differs from the one in `w` only in resources, ledgers
and relations. -/
theorem preCombat_civs (w : World) (a d : ℕ) (i : ℕ) :
    ∃ r t f, (setRelationsW (breakTradeW w a d) a d "War").civs i =
      { w.civs i with resources := r, traded_resources := t, relations := f } := by
  obtain ⟨r, t, hbt⟩ := breakTradeW_civs w a d i
  obtain ⟨f, hsr⟩ := setRelationsW_civs (breakTradeW w a d) a d "War" i
  rw [hsr, hbt]
  exact ⟨_, _, _, rfl⟩

/-- **C3, counterexample.** With zero combat power on both sides the
battle is skipped, but the pre-combat steps still run: relations flip
from `"Neutral"` to `"War"`, so "no state of either civilization
changes" is false. -/
theorem civs_war_stalemate_changes_relations :
    ((wWar.civs 0).military * (1 + (1/10) * (wWar.civs 0).tech) = 0 ∧
      (wWar.civs 1).military * (1 + (1/10) * (wWar.civs 1).tech) = 0) ∧
    (wWar.civs 0).relations 1 = "Neutral" ∧
    ((civs_war wWar 0 1 none 0 0).civs 0).relations 1 = "War" := by
  with_unfolding_all decide

/-- **C3, amended.** When both combat powers are zero, `civs_war` is
exactly the composition of its two pre-combat steps (break the mutual
trade, set mutual relations to `"War"`): no battle happens, so every
civ's military, tech, culture, victories, population, alive flag and
planet holdings are unchanged, the planet arena is unchanged and no
ownership transfer occurs; only resources/ledgers (via the trade break)
and the two relation entries may change. -/
theorem civs_war_zero_power_noop (w : World) (a d : ℕ) (tp : Option ℕ) (r1 r2 : ℚ)
    (ha : (w.civs a).military * (1 + (1/10) * (w.civs a).tech) = 0)
    (hd : (w.civs d).military * (1 + (1/10) * (w.civs d).tech) = 0) :
    civs_war w a d tp r1 r2 = setRelationsW (breakTradeW w a d) a d "War" ∧
    (∀ i, ((civs_war w a d tp r1 r2).civs i).military = (w.civs i).military ∧
          ((civs_war w a d tp r1 r2).civs i).tech = (w.civs i).tech ∧
          ((civs_war w a d tp r1 r2).civs i).culture = (w.civs i).culture ∧
          ((civs_war w a d tp r1 r2).civs i).victories = (w.civs i).victories ∧
          ((civs_war w a d tp r1 r2).civs i).population = (w.civs i).population ∧
          ((civs_war w a d tp r1 r2).civs i).alive = (w.civs i).alive ∧
          ((civs_war w a d tp r1 r2).civs i).planets = (w.civs i).planets ∧
          ((civs_war w a d tp r1 r2).civs i).num_planets = (w.civs i).num_planets) ∧
    (civs_war w a d tp r1 r2).planets = w.planets ∧
    (civs_war w a d tp r1 r2).listCivs = w.listCivs := by
  have heq : civs_war w a d tp r1 r2 = setRelationsW (breakTradeW w a d) a d "War" := by
    unfold civs_war
    dsimp only
    split
    · rfl
    · next hcond =>
      exfalso
      apply hcond
      obtain ⟨ra, ta, fa, hA⟩ := preCombat_civs w a d a
      obtain ⟨rd, td, fd, hD⟩ := preCombat_civs w a d d
      rw [hA, hD]
      dsimp only
      rw [ha, hd]
      norm_num
  refine ⟨heq, ?_, ?_, ?_⟩
  · intro i
    rw [heq]
    obtain ⟨r, t, f, h⟩ := preCombat_civs w a d i
    rw [h]
    exact ⟨rfl, rfl, rfl, rfl, rfl, rfl, rfl, rfl⟩
  · rw [heq]; rfl
  · rw [heq]; rfl

/-- Witness for the amended C3 at the concrete zero-power world. -/
theorem civs_war_zero_power_noop_witness :
    civs_war wWar 0 1 none 0 0 = setRelationsW (breakTradeW wWar 0 1) 0 1 "War" ∧
    ((civs_war wWar 0 1 none 0 0).civs 0).military = (wWar.civs 0).military :=
  ⟨(civs_war_zero_power_noop wWar 0 1 none 0 0
      (by norm_num [wWar, baseCiv]) (by norm_num [wWar, baseCiv])).1,
   ((civs_war_zero_power_noop wWar 0 1 none 0 0
      (by norm_num [wWar, baseCiv]) (by norm_num [wWar, baseCiv])).2.1 0).1⟩

theorem remove_civ_facts (w : World) (pid cid : ℕ) (h : (w.planets pid).civ = some cid) :
    (remove_civ w pid).numPlanets = w.numPlanets ∧
    (∀ q, (remove_civ w pid).planets q
        = if q = pid then { w.planets pid with civ := none } else w.planets q) ∧
    (∀ i, i ≠ cid → (remove_civ w pid).civs i = w.civs i) ∧
    ((remove_civ w pid).civs cid).planets
      = Function.update (w.civs cid).planets (w.planets pid).id false ∧
    ((remove_civ w pid).civs cid).num_planets = (w.civs cid).num_planets - 1 ∧
    ((remove_civ w pid).civs cid).population_cap
      = (w.civs cid).population_cap - (w.planets pid).population_cap := by
  unfold remove_civ
  dsimp only
  rw [h]
  dsimp only
  refine ⟨rfl, ?_, ?_, ?_, ?_, ?_⟩
  · intro q
    show Function.update _ pid _ q = _
    rw [Function.update_apply]
    split <;> rfl
  · intro i hi
    rw [civs_setPlanet, civs_setCiv, if_neg hi]
  · rw [civs_setPlanet, civs_setCiv, if_pos rfl]
  · rw [civs_setPlanet, civs_setCiv, if_pos rfl]
  · rw [civs_setPlanet, civs_setCiv, if_pos rfl]

theorem remove_civ_eq_of_none (w : World) (pid : ℕ) (h : (w.planets pid).civ = none) :
    remove_civ w pid = w := by
  unfold remove_civ
  dsimp only
  rw [h]

theorem assign_civ_none_facts (w : World) (pid : ℕ) :
    (assign_civ w pid none).numPlanets =
      (if (w.planets pid).civ.isSome then remove_civ w pid else w).numPlanets ∧
    (∀ q, (assign_civ w pid none).planets q
        = if q = pid then
            { (if (w.planets pid).civ.isSome then remove_civ w pid else w).planets pid
              with civ := none }
          else (if (w.planets pid).civ.isSome then remove_civ w pid else w).planets q) ∧
    (∀ i, (assign_civ w pid none).civs i
        = (if (w.planets pid).civ.isSome then remove_civ w pid else w).civs i) := by
  unfold assign_civ
  dsimp only
  refine ⟨rfl, ?_, fun i => rfl⟩
  intro q
  show Function.update _ pid _ q = _
  rw [Function.update_apply]

theorem assign_civ_some_facts (w : World) (pid nc : ℕ) :
    (assign_civ w pid (some nc)).numPlanets =
      (if (w.planets pid).civ.isSome then remove_civ w pid else w).numPlanets ∧
    (∀ q, (assign_civ w pid (some nc)).planets q
        = if q = pid then
            { (if (w.planets pid).civ.isSome then remove_civ w pid else w).planets pid
              with civ := some nc }
          else (if (w.planets pid).civ.isSome then remove_civ w pid else w).planets q) ∧
    (∀ i, i ≠ nc → (assign_civ w pid (some nc)).civs i
        = (if (w.planets pid).civ.isSome then remove_civ w pid else w).civs i) ∧
    ((assign_civ w pid (some nc)).civs nc).planets
      = Function.update
          ((if (w.planets pid).civ.isSome then remove_civ w pid else w).civs nc).planets
          ((if (w.planets pid).civ.isSome then remove_civ w pid else w).planets pid).id
          true ∧
    ((assign_civ w pid (some nc)).civs nc).num_planets
      = ((if (w.planets pid).civ.isSome then remove_civ w pid else w).civs nc).num_planets + 1 ∧
    ((assign_civ w pid (some nc)).civs nc).population_cap
      = ((if (w.planets pid).civ.isSome then remove_civ w pid else w).civs nc).population_cap
        + ((if (w.planets pid).civ.isSome then remove_civ w pid else w).planets pid).population_cap := by
  unfold assign_civ
  dsimp only
  refine ⟨rfl, ?_, ?_, ?_, ?_, ?_⟩
  · intro q
    show Function.update _ pid _ q = _
    rw [Function.update_apply]
  · intro i hi
    rw [civs_setCiv, if_neg hi, civs_setPlanet]
  · rw [civs_setCiv, if_pos rfl]
    rfl
  · rw [civs_setCiv, if_pos rfl]
    rfl
  · rw [civs_setCiv, if_pos rfl]
    rfl

theorem consistent_atMostOneOwner (w : World) (hw : consistent w) : atMostOneOwner w := by
  intro p hp c c' hc hc'
  have h1 := (hw.2 p hp c).mp hc
  have h2 := (hw.2 p hp c').mp hc'
  rw [h1] at h2
  exact Option.some.inj h2

theorem planet_ownership_consistency (w : World) (pid : ℕ)
    (hp : pid < w.numPlanets) (hw : consistent w) :
    (consistent (remove_civ w pid) ∧ atMostOneOwner (remove_civ w pid)) ∧
    (∀ o, consistent (assign_civ w pid o) ∧ atMostOneOwner (assign_civ w pid o)) ∧
    (∀ old nc, (w.planets pid).civ = some old → nc ≠ old →
      ((assign_civ w pid (some nc)).civs old).num_planets = (w.civs old).num_planets - 1 ∧
      ((assign_civ w pid (some nc)).civs old).population_cap
        = (w.civs old).population_cap - (w.planets pid).population_cap ∧
      ((assign_civ w pid (some nc)).civs old).planets pid = false) ∧
    (∀ nc, ((assign_civ w pid (some nc)).planets pid).civ = some nc ∧
           ((assign_civ w pid (some nc)).civs nc).planets pid = true) := by
  have hrem : consistent (remove_civ w pid) := by
    rcases hciv : (w.planets pid).civ with _ | cid
    · rw [remove_civ_eq_of_none w pid hciv]
      exact hw
    · obtain ⟨hn, hpl, hcivne, hcp, _, _⟩ := remove_civ_facts w pid cid hciv
      have hpidid : (w.planets pid).id = pid := hw.1 pid hp
      constructor
      · intro q hq
        rw [hn] at hq
        rw [hpl q]
        split
        · next e => rw [e]; exact hw.1 pid hp
        · exact hw.1 q hq
      · intro q hq c
        rw [hn] at hq
        rw [hpl q]
        by_cases hc : c = cid
        · subst hc
          rw [hcp, Function.update_apply, hpidid]
          split_ifs with hqp
          · simp
          · exact hw.2 q hq c
        · rw [hcivne c hc]
          split_ifs with hqp
          · rw [hqp, hw.2 pid hp c, hciv]
            simp [Ne.symm hc]
          · exact hw.2 q hq c
  have hw1 : consistent (if (w.planets pid).civ.isSome then remove_civ w pid else w) := by
    split
    · exact hrem
    · exact hw
  have hw1n : (if (w.planets pid).civ.isSome then remove_civ w pid else w).numPlanets = w.numPlanets := by
    by_cases hs : (w.planets pid).civ.isSome
    · rw [if_pos hs]
      obtain ⟨cid, hciv⟩ := Option.isSome_iff_exists.mp hs
      exact (remove_civ_facts w pid cid hciv).1
    · rw [if_neg hs]
  have hq1 : pid < (if (w.planets pid).civ.isSome then remove_civ w pid else w).numPlanets := by rw [hw1n]; exact hp
  have hid1 : ((if (w.planets pid).civ.isSome then remove_civ w pid else w).planets pid).id = pid := hw1.1 pid hq1
  have hw1civ : ((if (w.planets pid).civ.isSome then remove_civ w pid else w).planets pid).civ = none := by
    by_cases hs : (w.planets pid).civ.isSome
    · rw [if_pos hs]
      obtain ⟨cid, hciv⟩ := Option.isSome_iff_exists.mp hs
      obtain ⟨_, hpl, _, _, _, _⟩ := remove_civ_facts w pid cid hciv
      rw [hpl pid, if_pos rfl]
    · rw [if_neg hs]
      exact Option.not_isSome_iff_eq_none.mp hs
  have hw1mem : ∀ c, ((if (w.planets pid).civ.isSome then remove_civ w pid else w).civs c).planets pid = false := by
    intro c
    have hiff := hw1.2 pid hq1 c
    rw [hw1civ] at hiff
    cases hB : ((if (w.planets pid).civ.isSome then remove_civ w pid else w).civs c).planets pid
    · rfl
    · exact absurd (hiff.mp hB) (by simp)
  have hasg : ∀ o, consistent (assign_civ w pid o) := by
    intro o
    cases o with
    | none =>
      obtain ⟨han, hapl, hacivs⟩ := assign_civ_none_facts w pid
      constructor
      · intro q hq
        rw [han, hw1n] at hq
        rw [hapl q]
        split
        · next e => rw [e]; exact hid1
        · exact hw1.1 q (by rw [hw1n]; exact hq)
      · intro q hq c
        rw [han, hw1n] at hq
        by_cases hqp : q = pid
        · rw [hapl q, if_pos hqp, hacivs c, hqp, hw1mem c]
          simp
        · rw [hapl q, if_neg hqp, hacivs c]
          exact hw1.2 q (by rw [hw1n]; exact hq) c
    | some nc =>
      obtain ⟨han, hapl, hacivne, hacp, hanum, hacap⟩ := assign_civ_some_facts w pid nc
      constructor
      · intro q hq
        rw [han, hw1n] at hq
        rw [hapl q]
        split
        · next e => rw [e]; exact hid1
        · exact hw1.1 q (by rw [hw1n]; exact hq)
      · intro q hq c
        rw [han, hw1n] at hq
        by_cases hqp : q = pid
        · rw [hapl q, if_pos hqp, hqp]
          by_cases hc : c = nc
          · rw [hc, hacp, Function.update_apply, hid1, if_pos rfl]
            simp
          · rw [hacivne c hc, hw1mem c]
            simp [Ne.symm hc]
        · rw [hapl q, if_neg hqp]
          by_cases hc : c = nc
          · rw [hc, hacp, Function.update_apply, hid1, if_neg hqp]
            exact hw1.2 q (by rw [hw1n]; exact hq) nc
          · rw [hacivne c hc]
            exact hw1.2 q (by rw [hw1n]; exact hq) c
  have holdfx : ∀ old nc, (w.planets pid).civ = some old → nc ≠ old →
      ((assign_civ w pid (some nc)).civs old).num_planets = (w.civs old).num_planets - 1 ∧
      ((assign_civ w pid (some nc)).civs old).population_cap
        = (w.civs old).population_cap - (w.planets pid).population_cap ∧
      ((assign_civ w pid (some nc)).civs old).planets pid = false := by
    intro old nc hciv hne
    have hs : (w.planets pid).civ.isSome := by rw [hciv]; rfl
    obtain ⟨_, _, hacivne, _, _, _⟩ := assign_civ_some_facts w pid nc
    obtain ⟨_, _, _, hcp, hnum, hcap⟩ := remove_civ_facts w pid old hciv
    have h1 := hacivne old (fun e => hne e.symm)
    rw [h1, if_pos hs]
    refine ⟨hnum, hcap, ?_⟩
    rw [hcp, Function.update_apply, hw.1 pid hp, if_pos rfl]
  have hnewfx : ∀ nc, ((assign_civ w pid (some nc)).planets pid).civ = some nc ∧
      ((assign_civ w pid (some nc)).civs nc).planets pid = true := by
    intro nc
    obtain ⟨_, hapl, _, hacp, _, _⟩ := assign_civ_some_facts w pid nc
    constructor
    · rw [hapl pid, if_pos rfl]
    · rw [hacp, Function.update_apply, hid1, if_pos rfl]
  exact ⟨⟨hrem, consistent_atMostOneOwner _ hrem⟩,
    fun o => ⟨hasg o, consistent_atMostOneOwner _ (hasg o)⟩, holdfx, hnewfx⟩

theorem planet_ownership_consistency_witness :
    consistent (remove_civ wC10 0) ∧
    ((assign_civ wC10 0 (some 1)).civs 0).num_planets = (wC10.civs 0).num_planets - 1 ∧
    ((assign_civ wC10 0 (some 1)).planets 0).civ = some 1 := by
  have hw : consistent wC10 := by
    constructor
    · intro p hp
      rfl
    · intro p hp c
      show decide (p = c) = true ↔ some p = some c
      simp
  have h := planet_ownership_consistency wC10 0 (by norm_num [wC10]) hw
  exact ⟨h.1.1, (h.2.2.1 0 1 rfl (by norm_num)).1, (h.2.2.2 1).1⟩

/-- The update phase never touches `end_type`. -/
theorem updateLoopRev_end_type (log tanh : ℚ → ℚ) :
    ∀ (l : List ℕ) (w : World),
      (updateLoopRev log tanh w l).1.end_type = w.end_type
  | [], _ => rfl
  | i :: rest, w => by
    unfold updateLoopRev
    dsimp only
    split
    · exact updateLoopRev_end_type log tanh rest w
    · split
      · rfl
      · exact updateLoopRev_end_type log tanh rest _

/-- The per-turn counter reset never touches `end_type`. -/
theorem resetFold_end_type :
    ∀ (l : List ℕ) (w : World),
      (l.foldl (fun w i => w.setCiv i (reset_turn_counters (w.civs i))) w).end_type
        = w.end_type
  | [], _ => rfl
  | x :: xs, w => by
    rw [List.foldl_cons]
    exact resetFold_end_type xs _

/-- A turn that fires no terminal condition leaves `end_type` unchanged,
provided the interaction engine itself never writes it. -/
theorem doTurn_not_done_end_type (log tanh : ℚ → ℚ) (interact : ℕ → World → World)
    (hkeep : ∀ t w, (interact t w).end_type = w.end_type) (t : ℕ) (w : World) :
    (doTurn log tanh interact t w).2 = false →
    (doTurn log tanh interact t w).1.end_type = w.end_type := by
  unfold doTurn
  dsimp only
  split
  · intro h
    simp at h
  · split
    · intro h
      simp at h
    · split
      · intro h
        simp at h
      · split
        · intro h
          simp at h
        · split
          · intro h
            simp at h
          · intro h
            rw [hkeep, resetFold_end_type]
            exact updateLoopRev_end_type log tanh _ w

/-- The turn loop leaves `end_type` untouched over any stretch of turns
in which no terminal condition fires. -/
theorem runLoop_keeps_end_type (log tanh : ℚ → ℚ) (interact : ℕ → World → World)
    (hkeep : ∀ t w, (interact t w).end_type = w.end_type) :
    ∀ (fuel t : ℕ) (w : World),
      noTerminalRun log tanh interact fuel t w = true →
      (runLoop log tanh interact fuel t w).end_type = w.end_type
  | 0, _, _, _ => rfl
  | fuel + 1, t, w, h => by
    unfold noTerminalRun at h
    unfold runLoop
    dsimp only at h ⊢
    split at h
    · exact absurd h (by simp)
    · next hdone =>
      rw [if_neg hdone]
      rw [runLoop_keeps_end_type log tanh interact hkeep fuel (t + 1) _ h]
      have hfalse : (doTurn log tanh interact (t + 1) w).2 = false := by
        cases hB : (doTurn log tanh interact (t + 1) w).2
        · rfl
        · exact absurd hB hdone
      exact doTurn_not_done_end_type log tanh interact hkeep (t + 1) w hfalse

set_option maxRecDepth 100000 in
set_option maxHeartbeats 1600000 in
/-- **C6, counterexample.** A run that exhausts the configured turn
limit (`MAX_TURNS_SIM` = 200) with two civs alive and no terminal
condition ends with `end_type` still `""`, not `"Stalemate"`: nothing
after the `while` loop ever assigns `"Stalemate"` on turn-limit exit. -/
theorem turn_limit_end_type_not_stalemate :
    w6.max_turns = MAX_TURNS_SIM ∧
    noTerminalRun zfun zfun (fun _ w => w) w6.max_turns 0 w6 = true ∧
    (run_simulation zfun zfun (fun _ w => w) w6).end_type ≠ "Stalemate" := by
  with_unfolding_all decide

/-- **C6, amended.** If the configured turn limit is reached without any
terminal condition firing (and the interaction engine never writes
`end_type`, as `interact_civs` does not), the run ends without a
declared winner and `end_type` keeps its initial value — the empty
string the constructor set, not `"Stalemate"`. -/
theorem run_simulation_turn_limit_keeps_end_type (log tanh : ℚ → ℚ)
    (interact : ℕ → World → World)
    (hkeep : ∀ t w, (interact t w).end_type = w.end_type) (w : World)
    (h : noTerminalRun log tanh interact w.max_turns 0 w = true) :
    (run_simulation log tanh interact w).end_type = w.end_type :=
  runLoop_keeps_end_type log tanh interact hkeep w.max_turns 0 w h

set_option maxRecDepth 100000 in
set_option maxHeartbeats 1600000 in
/-- Witness for the amended C6: the 200-turn two-civ run keeps the
empty `end_type`. -/
theorem run_simulation_turn_limit_keeps_end_type_witness :
    noTerminalRun zfun zfun (fun _ w => w) w6.max_turns 0 w6 = true ∧
    (run_simulation zfun zfun (fun _ w => w) w6).end_type = w6.end_type := by
  have h : noTerminalRun zfun zfun (fun _ w => w) w6.max_turns 0 w6 = true := by
    with_unfolding_all decide
  exact ⟨h, run_simulation_turn_limit_keeps_end_type zfun zfun _ (fun _ _ => rfl) w6 h⟩

end CivDiplomacy
